import Mathlib

/-!
# UrbanServer: the data-access handlers of `UrbanServer.go`

A shallow embedding of the two request handlers registered in `main`
(`POST /data`, source lines 200-207, and `GET /data`, source lines 210-255),
of the `GetData` record (lines 18-23) and of the six prepared statements of
`initStatements` (lines 103-130).

Modelling conventions

* `float64` values are never computed with by the handlers, only moved from a
  column to a field, so the float type is a parameter `F`.
* The relational engine is a value `DB F`: what `Stmt.Exec` and `Stmt.Query`
  return for a given statement and arguments.  A handler run yields an
  `Outcome`: the `Query` calls it made, the responses it wrote through the
  gin context (in order), and whether it ended in a run-time panic.
* Go standard-library functions used by the handler (`strconv.Atoi`,
  `fmt.Sprintf` with the verb `%02d`, `encoding/json` on a slice) are
  modelled after their documented behaviour on a 64-bit platform.
* A Go slice is `Option (List α)`: `none` is the nil slice.
* A `*sql.Rows` is `Option (Rows F)`: `none` is the nil pointer.
* Strings are sequences of Unicode characters; comparing them character by
  character is the byte-wise comparison of their UTF-8 encodings.
* Left out, having no effect on the calls and responses of a handler: the
  `log.Print` of line 203, the `defer rows.Close()` of line 234 and the
  header-setting middleware of lines 192-197.
* A `rows.Next()` that returns false ends the loop whatever its cause: `Rows`
  carries the error that stopped the iteration, if any, and the handler, which
  never calls `rows.Err()`, does not read it.
* The column `Timestamp` is declared `TIMESTAMP` (line 93) and scanned into a
  Go `string` (lines 241-244): the SQLite driver hands a text of such a column
  to `database/sql` as a `time.Time` (the zero time when the text is not a
  time), and `rows.Scan` writes a `time.Time` into a string in the layout
  `time.RFC3339Nano`.  `scanTimestamp` models this path.
-/

namespace UrbanServer

/-! ## Records -/

/-- The struct for GET queries (source lines 18-23), fields in declaration order. -/
structure GetData (F : Type) where
  Latitud : F
  Longitud : F
  Timestamp : String
  Value : F
deriving DecidableEq, Repr

/-- One row of the table `Data` created by `createTableData` (source lines
89-97): numbers in the numeric columns and a text in the column `Timestamp`. -/
structure DataRow (F : Type) where
  id : Nat
  Latitud : F
  Longitud : F
  Timestamp : String
  Temperature : F
  Humidity : F
  AirQuality : F
  Noise : F
deriving DecidableEq, Repr

/-! ## Errors -/

/-- The two sentinel errors of `strconv`. -/
inductive ErrKind where
  | ErrSyntax
  | ErrRange
deriving DecidableEq, Repr

/-- The `strconv.NumError` record: failing function, input, and cause. -/
structure NumError where
  Func : String
  Num : String
  Err : ErrKind
deriving DecidableEq, Repr

/-- A Go `error` value as the handlers meet it: a `*strconv.NumError` from
`Atoi`, or an error reported by `database/sql`, carried as its text. -/
inductive GoError where
  | num (e : NumError)
  | sql (msg : String)
deriving DecidableEq, Repr

/-- Text of the sentinel errors. -/
def ErrKind.Error : ErrKind → String
  | .ErrSyntax => "invalid syntax"
  | .ErrRange => "value out of range"

/-- The method `(*NumError).Error`; `Quote` stands for `strconv.Quote`. -/
def NumError.Error (Quote : String → String) (e : NumError) : String :=
  "strconv." ++ e.Func ++ ": parsing " ++ Quote e.Num ++ ": " ++ e.Err.Error

/-- The method `Error()` of an error value. -/
def GoError.Error (Quote : String → String) : GoError → String
  | .num e => e.Error Quote
  | .sql msg => msg

/-! ## `strconv.Atoi` and `fmt.Sprintf("%02d", _)` -/

/-- Value of a decimal digit, `none` for any other character. -/
def digitVal (c : Char) : Option Nat :=
  if 48 ≤ c.toNat ∧ c.toNat ≤ 57 then some (c.toNat - 48) else none

/-- The digit loop of `strconv.ParseUint(s, 10, 64)`: the first offending
character decides between a syntax error and a range error. -/
def parseUintLoop : List Char → Nat → Except ErrKind Nat
  | [], n => .ok n
  | c :: cs, n =>
    match digitVal c with
    | none => .error .ErrSyntax
    | some d =>
      if n ≥ (2 ^ 64 - 1) / 10 + 1 then .error .ErrRange
      else if n * 10 + d > 2 ^ 64 - 1 then .error .ErrRange
      else parseUintLoop cs (n * 10 + d)

/-- The function `strconv.ParseUint(s, 10, 64)` without the error record:
on a range error the value is the largest `uint64`. -/
def ParseUint (s : List Char) : Nat × Option ErrKind :=
  match s with
  | [] => (0, some .ErrSyntax)
  | _ =>
    match parseUintLoop s 0 with
    | .ok n => (n, none)
    | .error .ErrSyntax => (0, some .ErrSyntax)
    | .error .ErrRange => (2 ^ 64 - 1, some .ErrRange)

/-- The function `strconv.Atoi` on a 64-bit platform (`ParseInt(s, 10, 0)`
with the error's `Func` set to `Atoi`): the parsed value and the error. A
syntax error comes with the value 0, a range error with the nearest `int`. -/
def Atoi (s : String) : Int × Option NumError :=
  match s.data with
  | [] => (0, some ⟨"Atoi", s, .ErrSyntax⟩)
  | c :: cs =>
    let neg : Bool := c = '-'
    let rest : List Char := if c = '+' ∨ c = '-' then cs else c :: cs
    match ParseUint rest with
    | (_, some .ErrSyntax) => (0, some ⟨"Atoi", s, .ErrSyntax⟩)
    | (un, _) =>
      if ¬ neg ∧ un ≥ 2 ^ 63 then (2 ^ 63 - 1, some ⟨"Atoi", s, .ErrRange⟩)
      else if neg ∧ un > 2 ^ 63 then (-(2 ^ 63), some ⟨"Atoi", s, .ErrRange⟩)
      else if neg then (-(un : Int), none)
      else ((un : Int), none)

/-- Two-complement wrap-around of a 64-bit `int`. -/
def wrapInt64 (x : Int) : Int :=
  (x + 2 ^ 63) % 2 ^ 64 - 2 ^ 63

/-- The call `fmt.Sprintf("%02d", n)`: zero padding to width 2, the sign
counting towards the width. -/
def Sprintf02d (n : Int) : String :=
  if n < 0 then "-" ++ Nat.repr n.natAbs
  else if n.toNat < 10 then "0" ++ Nat.repr n.toNat
  else Nat.repr n.toNat

/-! ## The store interface -/

/-- The prepared statements held in the global variables (source lines 37-45). -/
inductive Stmt where
  | createData
  | createDebugData
  | readTempData
  | readHumidityData
  | readAirData
  | readNoiseData
deriving DecidableEq, Repr

/-- What one `rows.Scan(&a, &b, &c, &d)` with destinations of type
`float64, float64, string, float64` writes into them, in argument order. -/
structure Scanned (F : Type) where
  c1 : F
  c2 : F
  c3 : String
  c4 : F
deriving DecidableEq, Repr

/-- A non-nil `*sql.Rows`: for each row that `rows.Next()` announces, the result
of scanning it, and the error (the value of `rows.Err()`) with which the
iteration stopped, `none` when it stopped at the end of the result set. -/
structure Rows (F : Type) where
  scans : List (Except GoError (Scanned F))
  err : Option GoError

/-- The relational engine seen from the handlers. -/
structure DB (F : Type) where
  Exec : Stmt → List String → Option GoError
  Query : Stmt → String → String → Except GoError (Rows F)

/-- A recorded call `stmt.Query(start, stop)`. -/
structure StoreCall where
  stmt : Stmt
  start : String
  stop : String
deriving DecidableEq, Repr

/-! ## Responses -/

/-- The value handed to `c.JSON` or `c.IndentedJSON`. -/
inductive Body (F : Type) where
  | text (s : String)
  | H (fields : List (String × String))
  | data (d : Option (List (GetData F)))
deriving DecidableEq, Repr

/-- One call of `c.JSON(status, body)` or `c.IndentedJSON(status, body)`. -/
structure Response (F : Type) where
  status : Nat
  body : Body F
deriving DecidableEq, Repr

/-- The value `http.StatusOK`. -/
def StatusOK : Nat := 200

/-- The value `http.StatusBadRequest`. -/
def StatusBadRequest : Nat := 400

/-- The observable result of one handler run. -/
structure Outcome (F : Type) where
  queries : List StoreCall
  responses : List (Response F)
  panicked : Bool
deriving DecidableEq, Repr

/-! ## `POST /data` (source lines 200-207) -/

/-- The POST handler: the insert is executed, a failure writes the 400
response, and the 200 response is written in every case (there is no
`return` inside the `if`). -/
def postData {F : Type} (db : DB F) (lat lng temp humidity air noise : String) : Outcome F :=
  let err := db.Exec .createData [lat, lng, temp, humidity, air, noise]
  let r1 : List (Response F) :=
    if err.isSome then [⟨StatusBadRequest, .text "error: Could not create data"⟩] else []
  { queries := []
    responses := r1 ++ [⟨StatusOK, .H [("mensaje", "Data stored succesfully")]⟩]
    panicked := false }

/-! ## `GET /data` (source lines 210-255) -/

/-- The pair `startTimestamp, endTimestamp` of source lines 217-221, from the
date and the value `hour` returned by `Atoi`. -/
def timeWindow (date : String) (hour : Int) : String × String :=
  let startHour := Sprintf02d (wrapInt64 (hour - 1)) ++ ":00:00"
  let endHour := Sprintf02d hour ++ ":00:00"
  (date ++ " " ++ startHour, date ++ " " ++ endHour)

/-- The variables `rows` and `err` of the handler, with the calls made so far. -/
structure QState (F : Type) where
  rows : Option (Rows F)
  err : Option GoError
  queries : List StoreCall

/-- The assignment `rows, err = stmt.Query(startTimestamp, endTimestamp)`. -/
def runQuery {F : Type} (db : DB F) (stmt : Stmt) (start stop : String) (st : QState F) :
    QState F :=
  match db.Query stmt start stop with
  | .ok r => { rows := some r, err := none, queries := st.queries ++ [⟨stmt, start, stop⟩] }
  | .error e => { rows := none, err := some e, queries := st.queries ++ [⟨stmt, start, stop⟩] }

/-- The loop `for rows.Next() { ... }` of source lines 238-251 followed by
line 254, as the list of responses written; the first argument holds the rows
still to be announced and `data` is the slice so far. -/
def scanLoop {F : Type} (Quote : String → String) :
    List (Except GoError (Scanned F)) → Option (List (GetData F)) → List (Response F)
  | [], data => [⟨StatusOK, .data data⟩]
  | .error e :: _, _ => [⟨StatusBadRequest, .text ("error:" ++ e.Error Quote)⟩]
  | .ok row :: rest, data =>
    let Longitud := row.c1
    let Latitud := row.c2
    let Timestamp := row.c3
    let Value := row.c4
    let d : GetData F := ⟨Longitud, Latitud, Timestamp, Value⟩
    scanLoop Quote rest (some (data.getD [] ++ [d]))

/-- The GET handler. -/
def getData {F : Type} (Quote : String → String) (db : DB F)
    (dataType date hourStr : String) : Outcome F :=
  let parsed := Atoi hourStr
  let hour := parsed.1
  let w := timeWindow date hour
  let startTimestamp := w.1
  let endTimestamp := w.2
  let s0 : QState F := { rows := none, err := parsed.2.map GoError.num, queries := [] }
  let s1 := if dataType = "temp" then runQuery db .readTempData startTimestamp endTimestamp s0 else s0
  let s2 := if dataType = "humidity" then runQuery db .readHumidityData startTimestamp endTimestamp s1 else s1
  let s3 := if dataType = "air" then runQuery db .readAirData startTimestamp endTimestamp s2 else s2
  let s4 := if dataType = "noise" then runQuery db .readNoiseData startTimestamp endTimestamp s3 else s3
  match s4.err with
  | some e =>
    { queries := s4.queries
      responses := [⟨StatusBadRequest, .text ("error:" ++ e.Error Quote)⟩]
      panicked := false }
  | none =>
    match s4.rows with
    | none => { queries := s4.queries, responses := [], panicked := true }
    | some rows =>
      { queries := s4.queries, responses := scanLoop Quote rows.scans none, panicked := false }

/-! ## `encoding/json` on the result slice -/

/-- The text `json.MarshalIndent(data, "", "    ")` produces for the slice given
to `c.IndentedJSON` (line 254): a nil slice encodes as `null`, any other slice
as an array; `encodeElem` is the indented encoding of one record. -/
def encodeData {F : Type} (encodeElem : GetData F → String) :
    Option (List (GetData F)) → String
  | none => "null"
  | some [] => "[]"
  | some (d :: ds) =>
    "[\n    " ++ String.intercalate ",\n    " ((d :: ds).map encodeElem) ++ "\n]"

/-! ## A `TIMESTAMP` text scanned into a Go string

The SQLite driver tries the layouts of its list `SQLiteTimestampFormats` in
order with `time.ParseInLocation(layout, text, time.UTC)`, after dropping one
trailing `Z`, and falls back to the zero time; `rows.Scan` then formats the
time with `time.RFC3339Nano`. -/

/-- The elements of the layouts in `SQLiteTimestampFormats`: a literal
character, or one of the chunks `2006`, `01`, `02`, `15`, `04`, `05`,
`.999999999`, `-07:00`. -/
inductive StdChunk where
  | lit (c : Char)
  | stdLongYear
  | stdZeroMonth
  | stdZeroDay
  | stdHour
  | stdZeroMinute
  | stdZeroSecond
  | stdFracSecond9
  | stdNumColonTZ
deriving DecidableEq, Repr

/-- The fields `time.Parse` collects, which are also the wall-clock fields
`Format` prints; `zoneOffset` is in seconds east of UTC. -/
structure Time where
  year : Nat
  month : Nat
  day : Nat
  hour : Nat
  min : Nat
  sec : Nat
  nsec : Nat
  zoneOffset : Int
deriving DecidableEq, Repr

/-- The helper `getnum` of package `time`: one or two leading digits, two
being required when `fixed`. -/
def getnum (fixed : Bool) : List Char → Option (Nat × List Char)
  | [] => none
  | c0 :: rest =>
    match digitVal c0 with
    | none => none
    | some d0 =>
      match rest with
      | [] => if fixed then none else some (d0, [])
      | c1 :: rest1 =>
        match digitVal c1 with
        | some d1 => some (d0 * 10 + d1, rest1)
        | none => if fixed then none else some (d0, c1 :: rest1)

/-- The helper `cutspace`: the text without its leading spaces. -/
def cutspace : List Char → List Char
  | ' ' :: rest => cutspace rest
  | value => value

/-- The helper `skip` for one literal character of a layout: a space stands
for any run of spaces or the end of the text, any other character for itself. -/
def skip (c : Char) (value : List Char) : Option (List Char) :=
  if c = ' ' then
    match value with
    | [] => some []
    | v :: rest => if v = ' ' then some (cutspace rest) else none
  else
    match value with
    | [] => none
    | v :: rest => if v = c then some rest else none

/-- The helper `commaOrPeriod`. -/
def commaOrPeriod (c : Char) : Bool :=
  c = '.' || c = ','

/-- The leading decimal digits of a text and what follows them. -/
def spanDigits : List Char → List Nat × List Char
  | [] => ([], [])
  | c :: rest =>
    match digitVal c with
    | none => ([], c :: rest)
    | some d => (d :: (spanDigits rest).1, (spanDigits rest).2)

/-- The helper `parseNanoseconds` on the digits of a fraction: at most nine
count, scaled to nanoseconds. -/
def parseNanoseconds (digits : List Nat) : Nat :=
  let ds := digits.take 9
  ds.foldl (fun n d => n * 10 + d) 0 * 10 ^ (9 - ds.length)

/-- A fractional second at the head of the text: a comma or period followed by
at least one digit; every digit that follows is consumed. -/
def takeFrac : List Char → Option (Nat × List Char)
  | c :: rest =>
    if commaOrPeriod c then
      match spanDigits rest with
      | ([], _) => none
      | (ds, value) => some (parseNanoseconds ds, value)
    else none
  | [] => none

/-- One iteration of the loop of `time.parse`: the chunk `std` is read off the
head of `value`; `next` is the chunk that follows in the layout (seconds
accept a fraction of their own unless the layout has one next). -/
def parseStd (std : StdChunk) (next : Option StdChunk) (t : Time) (value : List Char) :
    Option (Time × List Char) :=
  match std with
  | .lit c => (skip c value).map (fun v => (t, v))
  | .stdLongYear =>
    match value with
    | a :: b :: c :: d :: rest =>
      match digitVal a, digitVal b, digitVal c, digitVal d with
      | some a, some b, some c, some d =>
        some ({ t with year := a * 1000 + b * 100 + c * 10 + d }, rest)
      | _, _, _, _ => none
    | _ => none
  | .stdZeroMonth =>
    match getnum true value with
    | some (month, rest) =>
      if month = 0 ∨ 12 < month then none else some ({ t with month := month }, rest)
    | none => none
  | .stdZeroDay =>
    match getnum true value with
    | some (day, rest) => some ({ t with day := day }, rest)
    | none => none
  | .stdHour =>
    match getnum false value with
    | some (hour, rest) => if 24 ≤ hour then none else some ({ t with hour := hour }, rest)
    | none => none
  | .stdZeroMinute =>
    match getnum true value with
    | some (min, rest) => if 60 ≤ min then none else some ({ t with min := min }, rest)
    | none => none
  | .stdZeroSecond =>
    match getnum true value with
    | some (sec, rest) =>
      if 60 ≤ sec then none
      else if next = some .stdFracSecond9 then some ({ t with sec := sec }, rest)
      else
        match takeFrac rest with
        | some (nsec, rest1) => some ({ t with sec := sec, nsec := nsec }, rest1)
        | none => some ({ t with sec := sec }, rest)
    | none => none
  | .stdFracSecond9 =>
    match takeFrac value with
    | some (nsec, rest) => some ({ t with nsec := nsec }, rest)
    | none => some (t, value)
  | .stdNumColonTZ =>
    match value with
    | sign :: h1 :: h2 :: colon :: m1 :: m2 :: rest =>
      if colon ≠ ':' then none
      else
        match getnum true [h1, h2], getnum true [m1, m2] with
        | some (hr, _), some (mm, _) =>
          if 24 < hr ∨ 60 < mm then none
          else if sign = '+' then some ({ t with zoneOffset := ((hr * 60 + mm) * 60 : Nat) }, rest)
          else if sign = '-' then some ({ t with zoneOffset := -((hr * 60 + mm) * 60 : Nat) }, rest)
          else none
        | _, _ => none
    | _ => none

/-- The loop of `time.parse` over a layout; text left over at the end of the
layout is an error. -/
def parseLoop : List StdChunk → Time → List Char → Option Time
  | [], t, value => if value = [] then some t else none
  | std :: layout, t, value =>
    match parseStd std layout.head? t value with
    | some (t1, rest) => parseLoop layout t1 rest
    | none => none

/-- The helper `isLeap`. -/
def isLeap (year : Nat) : Bool :=
  year % 4 = 0 && (year % 100 ≠ 0 || year % 400 = 0)

/-- The helper `daysIn`: the number of days of a month. -/
def daysIn (month year : Nat) : Nat :=
  if month = 2 then (if isLeap year then 29 else 28)
  else if month = 4 ∨ month = 6 ∨ month = 9 ∨ month = 11 then 30
  else 31

/-- The fields before anything is parsed; a text without zone is in UTC. -/
def unset : Time :=
  ⟨0, 0, 0, 0, 0, 0, 0, 0⟩

/-- The call `time.ParseInLocation(layout, value, time.UTC)`: the loop, then
the check of the day against the month. -/
def parseInUTC (layout : List StdChunk) (value : List Char) : Option Time :=
  match parseLoop layout unset value with
  | some t => if t.day < 1 ∨ daysIn t.month t.year < t.day then none else some t
  | none => none

/-- The layout `2006-01-02` followed by the separator of date and time. -/
def dateOf (sep : Char) : List StdChunk :=
  [.stdLongYear, .lit '-', .stdZeroMonth, .lit '-', .stdZeroDay, .lit sep]

/-- The list `SQLiteTimestampFormats` of the driver, in its order. -/
def SQLiteTimestampFormats : List (List StdChunk) :=
  [ dateOf ' ' ++ [.stdHour, .lit ':', .stdZeroMinute, .lit ':', .stdZeroSecond,
      .stdFracSecond9, .stdNumColonTZ],
    dateOf 'T' ++ [.stdHour, .lit ':', .stdZeroMinute, .lit ':', .stdZeroSecond,
      .stdFracSecond9, .stdNumColonTZ],
    dateOf ' ' ++ [.stdHour, .lit ':', .stdZeroMinute, .lit ':', .stdZeroSecond, .stdFracSecond9],
    dateOf 'T' ++ [.stdHour, .lit ':', .stdZeroMinute, .lit ':', .stdZeroSecond, .stdFracSecond9],
    dateOf ' ' ++ [.stdHour, .lit ':', .stdZeroMinute, .lit ':', .stdZeroSecond],
    dateOf 'T' ++ [.stdHour, .lit ':', .stdZeroMinute, .lit ':', .stdZeroSecond],
    dateOf ' ' ++ [.stdHour, .lit ':', .stdZeroMinute],
    dateOf 'T' ++ [.stdHour, .lit ':', .stdZeroMinute],
    [.stdLongYear, .lit '-', .stdZeroMonth, .lit '-', .stdZeroDay] ]

/-- The first layout of the list that parses the text, if any. -/
def firstParse : List (List StdChunk) → List Char → Option Time
  | [], _ => none
  | layout :: more, value =>
    match parseInUTC layout value with
    | some t => some t
    | none => firstParse more value

/-- The call `strings.TrimSuffix(s, "Z")`. -/
def trimSuffixZ (s : List Char) : List Char :=
  if s.getLast? = some 'Z' then s.dropLast else s

/-- The zero `time.Time`: the first of January of the year 1, 00:00:00 UTC. -/
def zeroTime : Time :=
  ⟨1, 1, 1, 0, 0, 0, 0, 0⟩

/-- The digit character of a number below ten. -/
def utod (u : Nat) : Char :=
  Char.ofNat (48 + u)

/-- The helper `appendInt` on a natural number: decimal digits, zero padded
to `width`. -/
def appendInt (x width : Nat) : List Char :=
  if width = 2 ∧ x < 100 then [utod (x / 10), utod (x % 10)]
  else if width = 4 ∧ x < 10000 then
    [utod (x / 1000), utod (x / 100 % 10), utod (x / 10 % 10), utod (x % 10)]
  else List.replicate (width - (Nat.repr x).length) '0' ++ (Nat.repr x).data

/-- The text without its leading zeros. -/
def trimZeros : List Char → List Char
  | '0' :: rest => trimZeros rest
  | s => s

/-- The helper `appendNano` for the chunk `.999999999`: nothing for zero,
else a period and nine digits without the trailing zeros. -/
def appendNano (nanosec : Nat) : List Char :=
  if nanosec = 0 then [] else '.' :: (trimZeros (appendInt nanosec 9).reverse).reverse

/-- The zone of `Z07:00`: `Z` for UTC, else sign, hours and minutes. -/
def appendZone (offset : Int) : List Char :=
  if offset = 0 then ['Z']
  else
    let zone : Nat := offset.natAbs / 60
    (if offset < 0 then '-' else '+') :: (appendInt (zone / 60) 2 ++ ':' :: appendInt (zone % 60) 2)

/-- The call `t.Format(time.RFC3339Nano)`. -/
def formatRFC3339Nano (t : Time) : List Char :=
  appendInt t.year 4 ++ '-' :: appendInt t.month 2 ++ '-' :: appendInt t.day 2 ++ 'T' ::
    appendInt t.hour 2 ++ ':' :: appendInt t.min 2 ++ ':' :: appendInt t.sec 2 ++
    appendNano t.nsec ++ appendZone t.zoneOffset

/-- What `rows.Scan` writes into a Go string for a text stored in a column
declared `TIMESTAMP`, the database being opened without a location parameter
(`sql.Open("sqlite3", "urban.db")`, lines 136 and 156), so that the parsed
time is left in the zone it was parsed in. -/
def scanTimestamp (s : String) : String :=
  String.mk (formatRFC3339Nano
    ((firstParse SQLiteTimestampFormats (trimSuffixZ s.data)).getD zeroTime))

/-! ## The statements of `initStatements` over a table held as a list -/

/-- Text comparison `a <= b` of the engine: lexicographic, character by
character, a proper prefix coming first. -/
def lexLe : List Char → List Char → Bool
  | [], _ => true
  | _ :: _, [] => false
  | a :: as, b :: bs =>
    if a.toNat < b.toNat then true
    else if b.toNat < a.toNat then false
    else lexLe as bs

/-- The condition `Timestamp BETWEEN ? AND ?`, inclusive at both ends. -/
def between (ts start stop : String) : Bool :=
  lexLe start.data ts.data && lexLe ts.data stop.data

/-- The fourth column named in the text of each SELECT statement (source lines
114, 118, 122, 126); the two INSERT statements select nothing. -/
def selectedColumn {F : Type} : Stmt → Option (DataRow F → F)
  | .readTempData => some DataRow.Temperature
  | .readHumidityData => some DataRow.Humidity
  | .readAirData => some DataRow.AirQuality
  | .readNoiseData => some DataRow.Noise
  | .createData => none
  | .createDebugData => none

/-- The prepared statements run against a fixed table:
`SELECT Latitud, Longitud, Timestamp, <column> FROM Data WHERE Timestamp
BETWEEN ? AND ?` keeps the rows of the window in storage order, compared on
the stored text, and the iteration ends without error; every row scans, the
numeric columns to their stored values and the column `Timestamp` through
`scanTimestamp`; inserts are accepted (the table after the insert is not
modelled). -/
def tableDB {F : Type} (table : List (DataRow F)) : DB F where
  Exec := fun _ _ => none
  Query := fun stmt start stop =>
    match selectedColumn stmt with
    | none => .error (.sql "not a query")
    | some col =>
      .ok { scans := (table.filter (fun r => between r.Timestamp start stop)).map
              (fun r => .ok ⟨r.Latitud, r.Longitud, scanTimestamp r.Timestamp, col r⟩)
            err := none }

/-! ## Vocabulary of the specification -/

/-- The spec's two-digit rendering `HH(n)`: the tens digit, then the units digit. -/
def HH (n : Nat) : String :=
  String.mk [Char.ofNat (48 + n / 10), Char.ofNat (48 + n % 10)]

/-- The four-digit rendering of a year, as in a date `YYYY-MM-DD`. -/
def YYYY (y : Nat) : String :=
  String.mk [Char.ofNat (48 + y / 1000), Char.ofNat (48 + y / 100 % 10),
    Char.ofNat (48 + y / 10 % 10), Char.ofNat (48 + y % 10)]

/-- The statement the specification associates with each recognised `data_type`. -/
def readStmt : String → Option Stmt
  | "temp" => some .readTempData
  | "humidity" => some .readHumidityData
  | "air" => some .readAirData
  | "noise" => some .readNoiseData
  | _ => none

/-- The metric the specification associates with each recognised `data_type`:
temp -> Temperature, humidity -> Humidity, air -> AirQuality, noise -> Noise. -/
def metricOf {F : Type} : String → Option (DataRow F → F)
  | "temp" => some DataRow.Temperature
  | "humidity" => some DataRow.Humidity
  | "air" => some DataRow.AirQuality
  | "noise" => some DataRow.Noise
  | _ => none

/-- The slice after appending the records `l` one by one to the slice `data`:
unchanged (possibly nil) when there is nothing to append. -/
def appendAll {α : Type} (data : Option (List α)) (l : List α) : Option (List α) :=
  match l with
  | [] => data
  | _ :: _ => some (data.getD [] ++ l)

/-- The Response Record the specification derives from a result row
`(latitude, longitude, timestamp, metricValue)`. -/
def toRecord {F : Type} (row : Scanned F) : GetData F :=
  { Latitud := row.c1, Longitud := row.c2, Timestamp := row.c3, Value := row.c4 }

/-! ## Concrete stores and inputs -/

/-- The function `strconv.Quote` on printable ASCII text that holds neither a
double quote nor a backslash: the text between double quotes. -/
def quoteAscii (s : String) : String :=
  "\"" ++ s ++ "\""

/-- The reading of the specification's scenario, stored with id 1. -/
def scenarioRow : DataRow ℚ :=
  ⟨1, 39.47, -0.38, "2024-03-01 14:30:00", 22.5, 60, 40, 55⟩

/-- A reading taken exactly at 15:00:00. -/
def boundaryRow : DataRow ℚ :=
  ⟨2, 39.41, -0.33, "2024-03-01 15:00:00", 18, 70, 35, 48⟩

/-- A store whose every statement fails. -/
def lockedDB : DB ℚ where
  Exec := fun _ _ => some (.sql "database is locked")
  Query := fun _ _ _ => .error (.sql "database is locked")

/-- A store whose statements stop with an error after one row has been
announced and scanned: `rows.Next()` returns false and `rows.Err()` holds the
error. -/
def interruptedDB : DB ℚ where
  Exec := fun _ _ => none
  Query := fun _ _ _ =>
    .ok { scans := [.ok ⟨39.47, -0.38, "2024-03-01T14:30:00Z", 22.5⟩]
          err := some (.sql "database is locked") }

/-! ## Auxiliary facts -/

theorem wrapInt64_of_range (x : Int) (h1 : -(2 ^ 63) ≤ x) (h2 : x < 2 ^ 63) :
    wrapInt64 x = x := by
  unfold wrapInt64
  norm_num at h1 h2 ⊢
  omega

theorem Sprintf02d_eq_HH (n : Nat) (h : n < 100) : Sprintf02d (n : Int) = HH n := by
  interval_cases n <;> rfl

theorem timeWindow_eq (date : String) (n : Nat) (h1 : 1 ≤ n) (h2 : n ≤ 23) :
    timeWindow date (n : Int) =
      (date ++ " " ++ (HH (n - 1) ++ ":00:00"), date ++ " " ++ (HH n ++ ":00:00")) := by
  have e1 : wrapInt64 ((n : Int) - 1) = ((n - 1 : Nat) : Int) := by
    rw [wrapInt64_of_range ((n : Int) - 1) (by omega) (by omega)]; omega
  unfold timeWindow
  simp only [e1, Sprintf02d_eq_HH (n - 1) (by omega), Sprintf02d_eq_HH n (by omega)]

theorem readStmt_cases {dataType : String} {stmt : Stmt} (h : readStmt dataType = some stmt) :
    (dataType = "temp" ∧ stmt = .readTempData) ∨
    (dataType = "humidity" ∧ stmt = .readHumidityData) ∨
    (dataType = "air" ∧ stmt = .readAirData) ∨
    (dataType = "noise" ∧ stmt = .readNoiseData) := by
  unfold readStmt at h
  split at h <;> simp_all

theorem readStmt_none {dataType : String} (h : readStmt dataType = none) :
    dataType ≠ "temp" ∧ dataType ≠ "humidity" ∧ dataType ≠ "air" ∧ dataType ≠ "noise" := by
  refine ⟨?_, ?_, ?_, ?_⟩ <;> intro e <;> subst e <;> simp [readStmt] at h

/-- The handler on a recognised `data_type`: one call of the matching
statement on the resolved window, then either the error response or the scan
loop. -/
theorem getData_of_readStmt {F : Type} (Quote : String → String) (db : DB F)
    (dataType date hourStr : String) (stmt : Stmt) (h : readStmt dataType = some stmt) :
    getData Quote db dataType date hourStr =
      match db.Query stmt (timeWindow date (Atoi hourStr).1).1
          (timeWindow date (Atoi hourStr).1).2 with
      | .error e =>
        { queries := [⟨stmt, (timeWindow date (Atoi hourStr).1).1,
            (timeWindow date (Atoi hourStr).1).2⟩]
          responses := [⟨StatusBadRequest, .text ("error:" ++ e.Error Quote)⟩]
          panicked := false }
      | .ok rows =>
        { queries := [⟨stmt, (timeWindow date (Atoi hourStr).1).1,
            (timeWindow date (Atoi hourStr).1).2⟩]
          responses := scanLoop Quote rows.scans none
          panicked := false } := by
  rcases readStmt_cases h with ⟨rfl, rfl⟩ | ⟨rfl, rfl⟩ | ⟨rfl, rfl⟩ | ⟨rfl, rfl⟩
  all_goals
    rcases hq : db.Query _ (timeWindow date (Atoi hourStr).1).1
      (timeWindow date (Atoi hourStr).1).2 with e | rows <;>
    simp [getData, runQuery, hq]

/-- The handler on an unrecognised `data_type`: no statement is run; the
parse error of `hour`, if any, is reported, and otherwise `rows.Next()` is
called on the nil pointer. -/
theorem getData_of_unrecognised {F : Type} (Quote : String → String) (db : DB F)
    (dataType date hourStr : String) (h : readStmt dataType = none) :
    getData Quote db dataType date hourStr =
      match (Atoi hourStr).2 with
      | some e =>
        { queries := []
          responses := [⟨StatusBadRequest, .text ("error:" ++ (GoError.num e).Error Quote)⟩]
          panicked := false }
      | none => { queries := [], responses := [], panicked := true } := by
  obtain ⟨n1, n2, n3, n4⟩ := readStmt_none h
  simp only [getData, n1, n2, n3, n4, if_false]
  cases (Atoi hourStr).2 <;> simp

theorem scanLoop_all_ok {F : Type} (Quote : String → String) (rows : List (Scanned F)) :
    ∀ data : Option (List (GetData F)),
      scanLoop Quote (rows.map Except.ok) data =
        [⟨StatusOK, .data (appendAll data (rows.map toRecord))⟩] := by
  induction rows with
  | nil => intro data; rfl
  | cons r rest ih =>
    intro data
    rw [List.map_cons, scanLoop, ih]
    cases rest with
    | nil => rfl
    | cons r2 rest2 => simp [appendAll, toRecord]

theorem scanLoop_scan_error {F : Type} (Quote : String → String) (pre : List (Scanned F))
    (e : GoError) (post : List (Except GoError (Scanned F))) :
    ∀ data : Option (List (GetData F)),
      scanLoop Quote (pre.map Except.ok ++ Except.error e :: post) data =
        [⟨StatusBadRequest, .text ("error:" ++ e.Error Quote)⟩] := by
  induction pre with
  | nil => intro data; rfl
  | cons r rest ih =>
    intro data
    rw [List.map_cons, List.cons_append, scanLoop]
    exact ih _

theorem lexLe_refl (a : List Char) : lexLe a a = true := by
  induction a with
  | nil => rfl
  | cons c cs ih => simp [lexLe, ih]

theorem lexLe_append_left (p a b : List Char) : lexLe (p ++ a) (p ++ b) = lexLe a b := by
  induction p with
  | nil => rfl
  | cons c cs ih => simp [lexLe, ih]

/-- Consecutive hours compare strictly within their two digits, whatever follows. -/
theorem lexLe_HH_succ (n : Nat) (hn : n < 23) (r1 r2 : List Char) :
    lexLe ((HH n).data ++ r1) ((HH (n + 1)).data ++ r2) = true := by
  interval_cases n <;> rfl

/-- The text `:00:00` is the least minute-and-second suffix. -/
theorem lexLe_zero_minsec (mm ss : Nat) (hm : mm < 60) (hs : ss < 60) :
    lexLe ":00:00".data (":".data ++ ((HH mm).data ++ (":".data ++ (HH ss).data))) = true := by
  interval_cases mm
  · interval_cases ss <;> rfl
  all_goals rfl

/-- A timestamp inside hour `n` of day `d` lies in the window from `n` o'clock
to `n + 1` o'clock. -/
theorem between_within_hour (d : String) (n mm ss : Nat) (hn : n < 23) (hm : mm < 60)
    (hs : ss < 60) :
    between (d ++ " " ++ HH n ++ ":" ++ HH mm ++ ":" ++ HH ss)
      (d ++ " " ++ (HH n ++ ":00:00")) (d ++ " " ++ (HH (n + 1) ++ ":00:00")) = true := by
  unfold between
  simp only [String.data_append, List.append_assoc, lexLe_append_left, Bool.and_eq_true]
  exact ⟨lexLe_zero_minsec mm ss hm hs, lexLe_HH_succ n hn _ _⟩

/-- A timestamp on the hour lies in the window ending there. -/
theorem between_at_stop (d : String) (n : Nat) (hn : n < 23) :
    between (d ++ " " ++ HH (n + 1) ++ ":00:00")
      (d ++ " " ++ (HH n ++ ":00:00")) (d ++ " " ++ (HH (n + 1) ++ ":00:00")) = true := by
  unfold between
  simp only [String.data_append, List.append_assoc, lexLe_append_left, Bool.and_eq_true]
  exact ⟨lexLe_HH_succ n hn _ _, lexLe_refl _⟩

/-- A timestamp on the hour lies in the window beginning there. -/
theorem between_at_start (d : String) (n : Nat) (hn : n < 23) :
    between (d ++ " " ++ HH n ++ ":00:00")
      (d ++ " " ++ (HH n ++ ":00:00")) (d ++ " " ++ (HH (n + 1) ++ ":00:00")) = true := by
  unfold between
  simp only [String.data_append, List.append_assoc, lexLe_append_left, Bool.and_eq_true]
  exact ⟨lexLe_refl _, lexLe_HH_succ n hn _ _⟩

theorem selectedColumn_of_metricOf {F : Type} {dataType : String} {stmt : Stmt}
    {metric : DataRow F → F} (hs : readStmt dataType = some stmt)
    (hm : metricOf dataType = some metric) : selectedColumn stmt = some metric := by
  rcases readStmt_cases hs with ⟨rfl, rfl⟩ | ⟨rfl, rfl⟩ | ⟨rfl, rfl⟩ | ⟨rfl, rfl⟩ <;>
    simpa [metricOf, selectedColumn] using hm

theorem readStmt_of_metricOf {F : Type} {dataType : String} {metric : DataRow F → F}
    (hm : metricOf dataType = some metric) : ∃ stmt, readStmt dataType = some stmt := by
  unfold metricOf at hm
  split at hm <;> simp_all [readStmt]

/-- The handler over a table: the records of the rows in the window, in
storage order. -/
theorem getData_tableDB {F : Type} (Quote : String → String) (table : List (DataRow F))
    (dataType date hourStr : String) (metric : DataRow F → F)
    (hm : metricOf dataType = some metric) :
    (getData Quote (tableDB table) dataType date hourStr).responses =
      [⟨StatusOK, .data (appendAll none
        ((table.filter (fun r => between r.Timestamp (timeWindow date (Atoi hourStr).1).1
            (timeWindow date (Atoi hourStr).1).2)).map
          (fun r => ⟨r.Latitud, r.Longitud, scanTimestamp r.Timestamp, metric r⟩)))⟩] := by
  obtain ⟨stmt, hs⟩ := readStmt_of_metricOf hm
  have hc := selectedColumn_of_metricOf hs hm
  have hq : (tableDB table).Query stmt (timeWindow date (Atoi hourStr).1).1
      (timeWindow date (Atoi hourStr).1).2 =
      .ok ⟨((table.filter (fun r => between r.Timestamp (timeWindow date (Atoi hourStr).1).1
            (timeWindow date (Atoi hourStr).1).2)).map
          (fun r => (⟨r.Latitud, r.Longitud, scanTimestamp r.Timestamp, metric r⟩ :
            Scanned F))).map Except.ok, none⟩ := by
    simp [tableDB, hc, List.map_map, Function.comp_def]
  rw [getData_of_readStmt Quote _ dataType date hourStr stmt hs, hq]
  dsimp only
  rw [scanLoop_all_ok, List.map_map]
  rfl

theorem readStmt_of_ne {dataType : String} (n1 : dataType ≠ "temp")
    (n2 : dataType ≠ "humidity") (n3 : dataType ≠ "air") (n4 : dataType ≠ "noise") :
    readStmt dataType = none := by
  unfold readStmt
  split <;> simp_all

theorem timeWindow_zero (date : String) :
    timeWindow date 0 = (date ++ " -1:00:00", date ++ " 00:00:00") := by
  have e1 : Sprintf02d (wrapInt64 (0 - 1)) = "-1" := by decide
  have e2 : Sprintf02d 0 = "00" := by decide
  unfold timeWindow
  simp only [e1, e2, String.append_assoc]
  rfl

/-- Over a table, a stored row whose timestamp lies in the resolved window is
part of the one response, as the record of its coordinates, its timestamp as
scanned, and the requested metric. -/
theorem record_mem_of_between {F : Type} (Quote : String → String) (table : List (DataRow F))
    (R : DataRow F) (dataType date hourStr : String) (metric : DataRow F → F)
    (hR : R ∈ table) (hm : metricOf dataType = some metric)
    (hb : between R.Timestamp (timeWindow date (Atoi hourStr).1).1
      (timeWindow date (Atoi hourStr).1).2 = true) :
    ∃ recs : List (GetData F),
      (getData Quote (tableDB table) dataType date hourStr).responses =
        [⟨StatusOK, .data (some recs)⟩] ∧
      (⟨R.Latitud, R.Longitud, scanTimestamp R.Timestamp, metric R⟩ : GetData F) ∈ recs := by
  rw [getData_tableDB Quote table dataType date hourStr metric hm]
  have hmem : (⟨R.Latitud, R.Longitud, scanTimestamp R.Timestamp, metric R⟩ : GetData F) ∈
      (table.filter (fun r => between r.Timestamp (timeWindow date (Atoi hourStr).1).1
        (timeWindow date (Atoi hourStr).1).2)).map
          (fun r => (⟨r.Latitud, r.Longitud, scanTimestamp r.Timestamp, metric r⟩ : GetData F)) :=
    List.mem_map_of_mem _ (List.mem_filter.mpr ⟨hR, hb⟩)
  revert hmem
  generalize (table.filter (fun r => between r.Timestamp (timeWindow date (Atoi hourStr).1).1
        (timeWindow date (Atoi hourStr).1).2)).map
          (fun r => (⟨r.Latitud, r.Longitud, scanTimestamp r.Timestamp, metric r⟩ : GetData F)) = l
  intro hmem
  cases l with
  | nil => cases hmem
  | cons x xs => exact ⟨x :: xs, rfl, hmem⟩

theorem digitVal_utod (k : Nat) (hk : k < 10) : digitVal (Char.ofNat (48 + k)) = some k := by
  interval_cases k <;> rfl

theorem utod_ne (k : Nat) (hk : k < 10) (c : Char) (hc : digitVal c = none) :
    Char.ofNat (48 + k) ≠ c := by
  intro h
  rw [← h, digitVal_utod k hk] at hc
  cases hc

theorem getnum_two (fixed : Bool) (a b : Nat) (ha : a < 10) (hb : b < 10) (rest : List Char) :
    getnum fixed (Char.ofNat (48 + a) :: Char.ofNat (48 + b) :: rest) = some (a * 10 + b, rest) := by
  simp [getnum, digitVal_utod, ha, hb]


theorem parseStd_lit (c : Char) (hc : c ≠ ' ') (next : Option StdChunk) (t : Time) (rest : List Char) :
    parseStd (.lit c) next t (c :: rest) = some (t, rest) := by
  simp [parseStd, skip, hc]

theorem parseStd_space (k : Nat) (hk : k < 10) (next : Option StdChunk) (t : Time) (rest : List Char) :
    parseStd (.lit ' ') next t (' ' :: Char.ofNat (48 + k) :: rest) =
      some (t, Char.ofNat (48 + k) :: rest) := by
  have e : Char.ofNat (48 + k) ≠ ' ' := utod_ne k hk _ (by rfl)
  have c : cutspace (Char.ofNat (48 + k) :: rest) = Char.ofNat (48 + k) :: rest := by
    unfold cutspace
    split
    · next h => simp at h; exact absurd h.1 e
    · rfl
  simp [parseStd, skip, c]

theorem parseStd_T_space (next : Option StdChunk) (t : Time) (rest : List Char) :
    parseStd (.lit 'T') next t (' ' :: rest) = none := by
  simp [parseStd, skip]

theorem parseStd_year (a b c d : Nat) (ha : a < 10) (hb : b < 10) (hc : c < 10) (hd : d < 10)
    (next : Option StdChunk) (t : Time) (rest : List Char) :
    parseStd .stdLongYear next t
        (Char.ofNat (48 + a) :: Char.ofNat (48 + b) :: Char.ofNat (48 + c) ::
          Char.ofNat (48 + d) :: rest) =
      some ({ t with year := a * 1000 + b * 100 + c * 10 + d }, rest) := by
  simp [parseStd, digitVal_utod, ha, hb, hc, hd]

theorem parseStd_month (a b : Nat) (ha : a < 10) (hb : b < 10)
    (h : ¬ (a * 10 + b = 0 ∨ 12 < a * 10 + b)) (next : Option StdChunk) (t : Time) (rest : List Char) :
    parseStd .stdZeroMonth next t (Char.ofNat (48 + a) :: Char.ofNat (48 + b) :: rest) =
      some ({ t with month := a * 10 + b }, rest) := by
  simp only [parseStd, getnum_two true a b ha hb, if_neg h]

theorem parseStd_day (a b : Nat) (ha : a < 10) (hb : b < 10)
    (next : Option StdChunk) (t : Time) (rest : List Char) :
    parseStd .stdZeroDay next t (Char.ofNat (48 + a) :: Char.ofNat (48 + b) :: rest) =
      some ({ t with day := a * 10 + b }, rest) := by
  simp only [parseStd, getnum_two true a b ha hb]

theorem parseStd_hour (a b : Nat) (ha : a < 10) (hb : b < 10) (h : ¬ 24 ≤ a * 10 + b)
    (next : Option StdChunk) (t : Time) (rest : List Char) :
    parseStd .stdHour next t (Char.ofNat (48 + a) :: Char.ofNat (48 + b) :: rest) =
      some ({ t with hour := a * 10 + b }, rest) := by
  simp only [parseStd, getnum_two false a b ha hb, if_neg h]

theorem parseStd_minute (a b : Nat) (ha : a < 10) (hb : b < 10) (h : ¬ 60 ≤ a * 10 + b)
    (next : Option StdChunk) (t : Time) (rest : List Char) :
    parseStd .stdZeroMinute next t (Char.ofNat (48 + a) :: Char.ofNat (48 + b) :: rest) =
      some ({ t with min := a * 10 + b }, rest) := by
  simp only [parseStd, getnum_two true a b ha hb, if_neg h]

theorem parseStd_second_end (a b : Nat) (ha : a < 10) (hb : b < 10) (h : ¬ 60 ≤ a * 10 + b)
    (next : Option StdChunk) (t : Time) :
    parseStd .stdZeroSecond next t [Char.ofNat (48 + a), Char.ofNat (48 + b)] =
      some ({ t with sec := a * 10 + b }, []) := by
  simp only [parseStd, getnum_two true a b ha hb, if_neg h, takeFrac]
  split <;> rfl

theorem parseStd_frac_end (next : Option StdChunk) (t : Time) :
    parseStd .stdFracSecond9 next t [] = some (t, []) := by
  simp [parseStd, takeFrac]

theorem parseStd_tz_end (next : Option StdChunk) (t : Time) :
    parseStd .stdNumColonTZ next t [] = none := by
  simp [parseStd]

theorem firstParse_dateTime (y1 y2 y3 y4 m1 m2 d1 d2 h1 h2 n1 n2 s1 s2 : Nat)
    (hy1 : y1 < 10) (hy2 : y2 < 10) (hy3 : y3 < 10) (hy4 : y4 < 10)
    (hm1 : m1 < 10) (hm2 : m2 < 10) (hd1 : d1 < 10) (hd2 : d2 < 10)
    (hh1 : h1 < 10) (hh2 : h2 < 10) (hn1 : n1 < 10) (hn2 : n2 < 10)
    (hs1 : s1 < 10) (hs2 : s2 < 10)
    (hm : 1 ≤ m1 * 10 + m2 ∧ m1 * 10 + m2 ≤ 12) (hh : h1 * 10 + h2 < 24)
    (hn : n1 * 10 + n2 < 60) (hs : s1 * 10 + s2 < 60)
    (hd : 1 ≤ d1 * 10 + d2 ∧ d1 * 10 + d2 ≤ daysIn (m1 * 10 + m2) (y1 * 1000 + y2 * 100 + y3 * 10 + y4)) :
    firstParse SQLiteTimestampFormats
      [Char.ofNat (48 + y1), Char.ofNat (48 + y2), Char.ofNat (48 + y3), Char.ofNat (48 + y4), '-',
       Char.ofNat (48 + m1), Char.ofNat (48 + m2), '-', Char.ofNat (48 + d1), Char.ofNat (48 + d2), ' ',
       Char.ofNat (48 + h1), Char.ofNat (48 + h2), ':', Char.ofNat (48 + n1), Char.ofNat (48 + n2), ':',
       Char.ofNat (48 + s1), Char.ofNat (48 + s2)] =
      some ⟨y1 * 1000 + y2 * 100 + y3 * 10 + y4, m1 * 10 + m2, d1 * 10 + d2, h1 * 10 + h2,
        n1 * 10 + n2, s1 * 10 + s2, 0, 0⟩ := by
  have e2 : ¬ (m1 * 10 + m2 = 0 ∨ 12 < m1 * 10 + m2) := by omega
  have e3 : ¬ 24 ≤ h1 * 10 + h2 := by omega
  have e4 : ¬ 60 ≤ n1 * 10 + n2 := by omega
  have e5 : ¬ 60 ≤ s1 * 10 + s2 := by omega
  have e6 : ¬ (d1 * 10 + d2 < 1 ∨ daysIn (m1 * 10 + m2) (y1 * 1000 + y2 * 100 + y3 * 10 + y4) < d1 * 10 + d2) := by omega
  have c1 : ('-' : Char) ≠ ' ' := by decide
  have c2 : (':' : Char) ≠ ' ' := by decide
  simp only [SQLiteTimestampFormats, dateOf, List.cons_append, List.nil_append, firstParse,
    parseInUTC, parseLoop, List.head?_cons, List.head?_nil,
    parseStd_year y1 y2 y3 y4 hy1 hy2 hy3 hy4, parseStd_lit '-' c1, parseStd_lit ':' c2,
    parseStd_month m1 m2 hm1 hm2 e2, parseStd_day d1 d2 hd1 hd2, parseStd_space h1 hh1,
    parseStd_hour h1 h2 hh1 hh2 e3, parseStd_minute n1 n2 hn1 hn2 e4,
    parseStd_second_end s1 s2 hs1 hs2 e5, parseStd_frac_end, parseStd_tz_end, parseStd_T_space,
    unset, if_neg e6, if_true]

theorem formatRFC3339Nano_utc (y m dd h mi s : Nat) (hy : y < 10000) (hm : m < 100)
    (hd : dd < 100) (hh : h < 100) (hmi : mi < 100) (hs : s < 100) :
    formatRFC3339Nano ⟨y, m, dd, h, mi, s, 0, 0⟩ =
      (YYYY y).data ++ '-' :: (HH m).data ++ '-' :: (HH dd).data ++ 'T' :: (HH h).data ++
        ':' :: (HH mi).data ++ ':' :: (HH s).data ++ ['Z'] := by
  simp [formatRFC3339Nano, appendInt, appendNano, appendZone, utod, YYYY, HH, hy, hm, hd, hh, hmi, hs]

/-- A text `YYYY-MM-DD HH:MM:SS` that names a calendar day and a time of day
is handed to `rows.Scan` as that time in UTC and scans into its RFC 3339 form. -/
theorem scanTimestamp_dateTime (y m dd h mi s : Nat) (hy : y < 10000)
    (hm : 1 ≤ m ∧ m ≤ 12) (hd : 1 ≤ dd ∧ dd ≤ daysIn m y) (hh : h < 24) (hmi : mi < 60)
    (hs : s < 60) :
    scanTimestamp (YYYY y ++ "-" ++ HH m ++ "-" ++ HH dd ++ " " ++ HH h ++ ":" ++ HH mi ++ ":" ++ HH s) =
      YYYY y ++ "-" ++ HH m ++ "-" ++ HH dd ++ "T" ++ HH h ++ ":" ++ HH mi ++ ":" ++ HH s ++ "Z" := by
  have hdd : dd ≤ 31 := by
    have : daysIn m y ≤ 31 := by unfold daysIn; split_ifs <;> omega
    omega
  have ey : y / 1000 * 1000 + y / 100 % 10 * 100 + y / 10 % 10 * 10 + y % 10 = y := by omega
  have em : m / 10 * 10 + m % 10 = m := by omega
  have ed : dd / 10 * 10 + dd % 10 = dd := by omega
  have eh : h / 10 * 10 + h % 10 = h := by omega
  have en : mi / 10 * 10 + mi % 10 = mi := by omega
  have es : s / 10 * 10 + s % 10 = s := by omega
  have hz : Char.ofNat (48 + s % 10) ≠ 'Z' := utod_ne (s % 10) (by omega) _ (by rfl)
  have hp := firstParse_dateTime (y / 1000) (y / 100 % 10) (y / 10 % 10) (y % 10) (m / 10) (m % 10)
    (dd / 10) (dd % 10) (h / 10) (h % 10) (mi / 10) (mi % 10) (s / 10) (s % 10)
    (by omega) (by omega) (by omega) (by omega) (by omega) (by omega) (by omega) (by omega)
    (by omega) (by omega) (by omega) (by omega) (by omega) (by omega)
    (by rw [em]; exact hm) (by rw [eh]; exact hh) (by rw [en]; exact hmi) (by rw [es]; exact hs)
    (by rw [em, ed, ey]; exact hd)
  rw [ey, em, ed, eh, en, es] at hp
  apply String.ext
  have hin : (YYYY y ++ "-" ++ HH m ++ "-" ++ HH dd ++ " " ++ HH h ++ ":" ++ HH mi ++ ":" ++ HH s).data =
      [Char.ofNat (48 + y / 1000), Char.ofNat (48 + y / 100 % 10), Char.ofNat (48 + y / 10 % 10),
       Char.ofNat (48 + y % 10), '-', Char.ofNat (48 + m / 10), Char.ofNat (48 + m % 10), '-',
       Char.ofNat (48 + dd / 10), Char.ofNat (48 + dd % 10), ' ', Char.ofNat (48 + h / 10),
       Char.ofNat (48 + h % 10), ':', Char.ofNat (48 + mi / 10), Char.ofNat (48 + mi % 10), ':',
       Char.ofNat (48 + s / 10), Char.ofNat (48 + s % 10)] := by
    simp [YYYY, HH, String.data_append]
  have htrim : trimSuffixZ (YYYY y ++ "-" ++ HH m ++ "-" ++ HH dd ++ " " ++ HH h ++ ":" ++ HH mi ++ ":" ++ HH s).data =
      (YYYY y ++ "-" ++ HH m ++ "-" ++ HH dd ++ " " ++ HH h ++ ":" ++ HH mi ++ ":" ++ HH s).data := by
    rw [hin]
    unfold trimSuffixZ
    rw [if_neg]
    simpa [List.getLast?] using hz
  simp only [scanTimestamp, htrim]
  rw [hin, hp, Option.getD_some,
    formatRFC3339Nano_utc y m dd h mi s hy (by omega) (by omega) (by omega) (by omega) (by omega)]
  simp [String.data_append]


/-- For a recognised `data_type`, a `Query` that returns an error, and a row
that fails to scan after any number of rows that scanned, give the one
response 400 with `error:` and the text of the error. -/
theorem getData_query_or_scan_error {F : Type} (Quote : String → String) (db : DB F)
    (dataType date hourStr : String) (stmt : Stmt) (e : GoError)
    (hstmt : readStmt dataType = some stmt)
    (hfail : db.Query stmt (timeWindow date (Atoi hourStr).1).1
        (timeWindow date (Atoi hourStr).1).2 = .error e ∨
      ∃ (pre : List (Scanned F)) (post : List (Except GoError (Scanned F)))
        (stop : Option GoError),
        db.Query stmt (timeWindow date (Atoi hourStr).1).1
          (timeWindow date (Atoi hourStr).1).2 =
            .ok ⟨pre.map Except.ok ++ Except.error e :: post, stop⟩) :
    (getData Quote db dataType date hourStr).responses =
        [⟨StatusBadRequest, .text ("error:" ++ e.Error Quote)⟩] ∧
      (getData Quote db dataType date hourStr).panicked = false := by
  rw [getData_of_readStmt Quote db dataType date hourStr stmt hstmt]
  rcases hfail with hq | ⟨pre, post, stop, hq⟩
  · rw [hq]
    exact ⟨rfl, rfl⟩
  · rw [hq]
    exact ⟨scanLoop_scan_error Quote pre e post none, rfl⟩

/-! ## The claims -/

/-- C1: for every date `d` and every hour string that `Atoi` parses to `h` with
`1 ≤ h ≤ 23`, every `Query` call of the GET handler (one call, of the matching
statement, for each recognised `data_type`; none otherwise) receives the start
bound `d ++ " " ++ HH(h-1) ++ ":00:00"` and the end bound
`d ++ " " ++ HH(h) ++ ":00:00"`. -/
theorem C1_time_window_resolution {F : Type} (Quote : String → String) (db : DB F)
    (dataType d hourStr : String) (h : Nat) (hparse : Atoi hourStr = ((h : Int), none))
    (h1 : 1 ≤ h) (h2 : h ≤ 23) :
    (getData Quote db dataType d hourStr).queries =
      (readStmt dataType).toList.map (fun stmt =>
        ⟨stmt, d ++ " " ++ HH (h - 1) ++ ":00:00", d ++ " " ++ HH h ++ ":00:00"⟩) := by
  cases hr : readStmt dataType with
  | none =>
    rw [getData_of_unrecognised Quote db dataType d hourStr hr, hparse]
    rfl
  | some stmt =>
    rw [getData_of_readStmt Quote db dataType d hourStr stmt hr, hparse]
    simp only [timeWindow_eq d h h1 h2, String.append_assoc]
    split <;> rfl

/-- Witness of C1: date 2024-03-01 and hour 15 give the window from 14:00:00 to 15:00:00. -/
theorem C1_time_window_resolution_witness :
    Atoi "15" = (15, none) ∧
    (getData quoteAscii lockedDB "temp" "2024-03-01" "15").queries =
      [⟨.readTempData, "2024-03-01 14:00:00", "2024-03-01 15:00:00"⟩] :=
  ⟨by decide,
    C1_time_window_resolution quoteAscii lockedDB "temp" "2024-03-01" "15" 15 (by decide)
      (by decide) (by decide)⟩

/-- C9 (violated by the code): for a recognised `data_type`, when the
execution of the selected statement fails while the rows are read, so that
`rows.Next()` returns false with `rows.Err()` set after the rows `pre` were
scanned, the handler, which never reads `rows.Err()`, answers 200 with the
records of `pre` (the nil slice when there is none) and no 400. -/
theorem C9_partial_results_on_failed_iteration {F : Type} (Quote : String → String) (db : DB F)
    (dataType date hourStr : String) (stmt : Stmt) (e : GoError) (pre : List (Scanned F))
    (hstmt : readStmt dataType = some stmt)
    (hfail : db.Query stmt (timeWindow date (Atoi hourStr).1).1
        (timeWindow date (Atoi hourStr).1).2 = .ok ⟨pre.map Except.ok, some e⟩) :
    (getData Quote db dataType date hourStr).responses =
        [⟨StatusOK, .data (appendAll none (pre.map toRecord))⟩] ∧
      (getData Quote db dataType date hourStr).panicked = false := by
  rw [getData_of_readStmt Quote db dataType date hourStr stmt hstmt, hfail]
  exact ⟨scanLoop_all_ok Quote pre none, rfl⟩

/-- Witness of C9: the statement fails after its first row was scanned; the
answer is 200 with that row. -/
theorem C9_partial_results_on_failed_iteration_witness :
    (getData quoteAscii interruptedDB "temp" "2024-03-01" "15").responses =
        [⟨200, .data (some [⟨39.47, -0.38, "2024-03-01T14:30:00Z", 22.5⟩])⟩] ∧
      (getData quoteAscii interruptedDB "temp" "2024-03-01" "15").panicked = false :=
  C9_partial_results_on_failed_iteration quoteAscii interruptedDB "temp" "2024-03-01" "15"
    .readTempData (.sql "database is locked") [⟨39.47, -0.38, "2024-03-01T14:30:00Z", 22.5⟩]
    (by decide) (by rfl)

/-- C6 as stated fails on the scenario of the specification: the hypotheses of
the claim hold for the reading stored at `2024-03-01 14:30:00` and the read
`(temp, 2024-03-01, 15)`, the handler answers with exactly one record, whose
timestamp is `2024-03-01T14:30:00Z`, and no record with the timestamp of the
reading is in the response. -/
theorem C6_read_after_write_counterexample :
    scenarioRow ∈ [scenarioRow] ∧
    scenarioRow.Timestamp = "2024-03-01" ++ " " ++ HH (15 - 1) ++ ":" ++ HH 30 ++ ":" ++ HH 0 ∧
    Atoi "15" = (15, none) ∧
    (getData quoteAscii (tableDB [scenarioRow]) "temp" "2024-03-01" "15").responses =
      [⟨200, .data (some [⟨39.47, -0.38, "2024-03-01T14:30:00Z", 22.5⟩])⟩] ∧
    ¬ ∃ recs : List (GetData ℚ),
      (getData quoteAscii (tableDB [scenarioRow]) "temp" "2024-03-01" "15").responses =
        [⟨StatusOK, .data (some recs)⟩] ∧
      ({ Latitud := scenarioRow.Latitud, Longitud := scenarioRow.Longitud,
         Timestamp := scenarioRow.Timestamp, Value := scenarioRow.Temperature } : GetData ℚ) ∈
        recs := by
  have hr : (getData quoteAscii (tableDB [scenarioRow]) "temp" "2024-03-01" "15").responses =
      [⟨200, .data (some [⟨39.47, -0.38, "2024-03-01T14:30:00Z", 22.5⟩])⟩] := by rfl
  refine ⟨List.mem_singleton.mpr rfl, by decide, by decide, hr, ?_⟩
  rintro ⟨recs, h1, h2⟩
  rw [hr] at h1
  have h3 : recs = [⟨39.47, -0.38, "2024-03-01T14:30:00Z", 22.5⟩] := by
    simpa [StatusOK] using h1.symm
  rw [h3] at h2
  have h4 := congrArg GetData.Timestamp (List.mem_singleton.mp h2)
  exact absurd h4 (by decide)

/-- C6, amended: over a table with inclusive lexicographic BETWEEN, a stored
reading `R` whose timestamp is `d ++ " " ++ HH(h-1) ++ ":" ++ HH(mm) ++ ":" ++ HH(ss)`
with `1 ≤ h ≤ 23`, `mm, ss < 60`, is returned by the read `(data_type, d, h)` for
every recognised `data_type`: the 200 response holds the record with `lat` and
`lng` of `R`, `value` the metric of `R` for that type, and `timestamp` the
timestamp of `R` as a `TIMESTAMP` column scans into a string, which for a
calendar date `d = YYYY-MM-DD` is `d ++ "T" ++ HH(h-1) ++ ":" ++ HH(mm) ++ ":" ++ HH(ss) ++ "Z"`. -/
theorem C6_read_after_write {F : Type} (Quote : String → String) (table : List (DataRow F))
    (R : DataRow F) (dataType d hourStr : String) (h mm ss : Nat) (metric : DataRow F → F)
    (hR : R ∈ table)
    (hts : R.Timestamp = d ++ " " ++ HH (h - 1) ++ ":" ++ HH mm ++ ":" ++ HH ss)
    (h1 : 1 ≤ h) (h2 : h ≤ 23) (hmm : mm < 60) (hss : ss < 60)
    (hparse : Atoi hourStr = ((h : Int), none))
    (hmetric : metricOf dataType = some metric) :
    (∃ recs : List (GetData F),
      (getData Quote (tableDB table) dataType d hourStr).responses =
        [⟨StatusOK, .data (some recs)⟩] ∧
      ({ Latitud := R.Latitud, Longitud := R.Longitud,
         Timestamp := scanTimestamp R.Timestamp, Value := metric R } : GetData F) ∈ recs) ∧
    (∀ y m dd : Nat, y < 10000 → 1 ≤ m ∧ m ≤ 12 → 1 ≤ dd ∧ dd ≤ daysIn m y →
      d = YYYY y ++ "-" ++ HH m ++ "-" ++ HH dd →
      scanTimestamp R.Timestamp =
        d ++ "T" ++ HH (h - 1) ++ ":" ++ HH mm ++ ":" ++ HH ss ++ "Z") := by
  constructor
  · obtain ⟨n, rfl⟩ : ∃ n, h = n + 1 := ⟨h - 1, by omega⟩
    apply record_mem_of_between Quote table R dataType d hourStr metric hR hmetric
    rw [hparse, timeWindow_eq d (n + 1) h1 h2, hts]
    exact between_within_hour d n mm ss (by omega) hmm hss
  · intro y m dd hy hm hd hdate
    rw [hts, hdate]
    exact scanTimestamp_dateTime y m dd (h - 1) mm ss hy hm hd (by omega) hmm hss

/-- Witness of C6: the scenario of the specification; the read returns exactly
the one record, with the timestamp `2024-03-01T14:30:00Z`. -/
theorem C6_read_after_write_witness :
    ((∃ recs : List (GetData ℚ),
      (getData quoteAscii (tableDB [scenarioRow]) "temp" "2024-03-01" "15").responses =
        [⟨StatusOK, .data (some recs)⟩] ∧
      (⟨39.47, -0.38, "2024-03-01T14:30:00Z", 22.5⟩ : GetData ℚ) ∈ recs) ∧
     scanTimestamp "2024-03-01 14:30:00" = "2024-03-01T14:30:00Z") ∧
    (getData quoteAscii (tableDB [scenarioRow]) "temp" "2024-03-01" "15").responses =
      [⟨200, .data (some [⟨39.47, -0.38, "2024-03-01T14:30:00Z", 22.5⟩])⟩] :=
  ⟨⟨(C6_read_after_write quoteAscii [scenarioRow] scenarioRow "temp" "2024-03-01" "15" 15 30 0
      DataRow.Temperature (List.mem_singleton.mpr rfl) (by decide) (by decide) (by decide)
      (by decide) (by decide) (by decide) (by rfl)).1,
    (C6_read_after_write quoteAscii [scenarioRow] scenarioRow "temp" "2024-03-01" "15" 15 30 0
      DataRow.Temperature (List.mem_singleton.mpr rfl) (by decide) (by decide) (by decide)
      (by decide) (by decide) (by decide) (by rfl)).2 2024 3 1 (by decide) (by decide)
      (by decide) (by decide)⟩,
    by rfl⟩

/-- C7: over a table with inclusive lexicographic BETWEEN, for `1 ≤ h ≤ 22` a
stored reading whose timestamp is exactly `d ++ " " ++ HH(h) ++ ":00:00"` is
returned both by the read for hour `h` and by the read for hour `h + 1`: each
of the two 200 responses holds its record (coordinates, timestamp as scanned,
requested metric). -/
theorem C7_inclusive_boundary {F : Type} (Quote : String → String) (table : List (DataRow F))
    (R : DataRow F) (dataType d hourEnding hourBeginning : String) (h : Nat)
    (metric : DataRow F → F)
    (hR : R ∈ table) (hts : R.Timestamp = d ++ " " ++ HH h ++ ":00:00")
    (h1 : 1 ≤ h) (h2 : h ≤ 22)
    (hparse1 : Atoi hourEnding = ((h : Int), none))
    (hparse2 : Atoi hourBeginning = (((h + 1 : Nat) : Int), none))
    (hmetric : metricOf dataType = some metric) :
    (∃ recs : List (GetData F),
      (getData Quote (tableDB table) dataType d hourEnding).responses =
        [⟨StatusOK, .data (some recs)⟩] ∧
      (⟨R.Latitud, R.Longitud, scanTimestamp R.Timestamp, metric R⟩ : GetData F) ∈ recs) ∧
    (∃ recs : List (GetData F),
      (getData Quote (tableDB table) dataType d hourBeginning).responses =
        [⟨StatusOK, .data (some recs)⟩] ∧
      (⟨R.Latitud, R.Longitud, scanTimestamp R.Timestamp, metric R⟩ : GetData F) ∈ recs) := by
  obtain ⟨n, rfl⟩ : ∃ n, h = n + 1 := ⟨h - 1, by omega⟩
  constructor
  · apply record_mem_of_between Quote table R dataType d hourEnding metric hR hmetric
    rw [hparse1, timeWindow_eq d (n + 1) h1 (by omega), hts]
    exact between_at_stop d n (by omega)
  · apply record_mem_of_between Quote table R dataType d hourBeginning metric hR hmetric
    rw [hparse2, timeWindow_eq d (n + 1 + 1) (by omega) (by omega), hts]
    exact between_at_start d (n + 1) (by omega)

/-- Witness of C7: a reading at 15:00:00 is returned for hour 15 and for hour 16. -/
theorem C7_inclusive_boundary_witness :
    (∃ recs : List (GetData ℚ),
      (getData quoteAscii (tableDB [scenarioRow, boundaryRow]) "noise" "2024-03-01" "15").responses =
        [⟨StatusOK, .data (some recs)⟩] ∧
      (⟨39.41, -0.33, "2024-03-01T15:00:00Z", 48⟩ : GetData ℚ) ∈ recs) ∧
    (∃ recs : List (GetData ℚ),
      (getData quoteAscii (tableDB [scenarioRow, boundaryRow]) "noise" "2024-03-01" "16").responses =
        [⟨StatusOK, .data (some recs)⟩] ∧
      (⟨39.41, -0.33, "2024-03-01T15:00:00Z", 48⟩ : GetData ℚ) ∈ recs) :=
  C7_inclusive_boundary quoteAscii [scenarioRow, boundaryRow] boundaryRow "noise" "2024-03-01"
    "15" "16" 15 DataRow.Noise (List.mem_cons_of_mem _ (List.mem_singleton.mpr rfl)) (by decide)
    (by decide) (by decide) (by decide) (by decide) (by rfl)

/-- C2 (violated by the code): for a `data_type` other than the four
recognised ones and an `hour` that parses, the handler runs no statement, finds
`err == nil`, and calls `rows.Next()` on the nil `rows`: it writes no response
at all (neither 400 nor 200) and ends in a nil-pointer panic. -/
theorem C2_unrecognised_type_with_valid_hour {F : Type} (Quote : String → String) (db : DB F)
    (dataType date hourStr : String)
    (n1 : dataType ≠ "temp") (n2 : dataType ≠ "humidity") (n3 : dataType ≠ "air")
    (n4 : dataType ≠ "noise") (hparse : (Atoi hourStr).2 = none) :
    getData Quote db dataType date hourStr =
      { queries := [], responses := [], panicked := true } := by
  rw [getData_of_unrecognised Quote db dataType date hourStr (readStmt_of_ne n1 n2 n3 n4), hparse]

/-- Witness of C2: `data_type=pressure` with `hour=15`. -/
theorem C2_unrecognised_type_with_valid_hour_witness :
    getData quoteAscii (tableDB [scenarioRow]) "pressure" "2024-03-01" "15" =
      { queries := [], responses := [], panicked := true } :=
  C2_unrecognised_type_with_valid_hour quoteAscii (tableDB [scenarioRow]) "pressure"
    "2024-03-01" "15" (by decide) (by decide) (by decide) (by decide) (by decide)

/-- C3 (violated by the code): for a recognised `data_type` the error
returned by `Atoi` is overwritten by the result of `Query`; when the statement
succeeds on the window computed from the value `Atoi` returned with its error,
the handler answers 200 with the records of the rows, not 400 with the parse
error. -/
theorem C3_parse_error_overwritten {F : Type} (Quote : String → String) (db : DB F)
    (dataType date hourStr : String) (stmt : Stmt) (v : Int) (e : NumError)
    (rows : List (Scanned F)) (stop : Option GoError)
    (hstmt : readStmt dataType = some stmt) (hparse : Atoi hourStr = (v, some e))
    (hrows : db.Query stmt (timeWindow date v).1 (timeWindow date v).2 =
      .ok ⟨rows.map Except.ok, stop⟩) :
    (getData Quote db dataType date hourStr).responses =
      [⟨StatusOK, .data (appendAll none (rows.map toRecord))⟩] := by
  rw [getData_of_readStmt Quote db dataType date hourStr stmt hstmt, hparse]
  dsimp only
  rw [hrows]
  exact scanLoop_all_ok Quote rows none

/-- Witness of C3: `hour=abc` with `data_type=temp` over a table holding a
reading at midnight: the window is `-1:00:00` to `00:00:00` and the answer is
200 with that reading. -/
theorem C3_parse_error_overwritten_witness :
    Atoi "abc" = (0, some ⟨"Atoi", "abc", .ErrSyntax⟩) ∧
    (getData quoteAscii
      (tableDB [(⟨7, 39.45, -0.4, "2024-03-01 00:00:00", 12, 80, 30, 20⟩ : DataRow ℚ)])
      "temp" "2024-03-01" "abc").responses =
      [⟨200, .data (some [⟨39.45, -0.4, "2024-03-01T00:00:00Z", 12⟩])⟩] :=
  ⟨by decide,
    C3_parse_error_overwritten quoteAscii
      (tableDB [(⟨7, 39.45, -0.4, "2024-03-01 00:00:00", 12, 80, 30, 20⟩ : DataRow ℚ)])
      "temp" "2024-03-01" "abc" .readTempData 0 ⟨"Atoi", "abc", .ErrSyntax⟩
      [⟨39.45, -0.4, "2024-03-01T00:00:00Z", 12⟩] none (by decide) (by decide) (by rfl)⟩

/-- C4 (violated by the code): when the insert fails the POST handler
writes the 400 response and then, there being no `return`, the 200
confirmation as well. -/
theorem C4_failed_insert_still_confirms {F : Type} (db : DB F)
    (lat lng temp humidity air noise : String) (e : GoError)
    (hfail : db.Exec .createData [lat, lng, temp, humidity, air, noise] = some e) :
    (postData db lat lng temp humidity air noise).responses =
      [⟨StatusBadRequest, .text "error: Could not create data"⟩,
       ⟨StatusOK, .H [("mensaje", "Data stored succesfully")]⟩] := by
  simp [postData, hfail]

/-- Witness of C4: an insert into a locked database. -/
theorem C4_failed_insert_still_confirms_witness :
    (postData lockedDB "39.47" "-0.38" "22.5" "60" "40" "55").responses =
      [⟨400, .text "error: Could not create data"⟩,
       ⟨200, .H [("mensaje", "Data stored succesfully")]⟩] :=
  C4_failed_insert_still_confirms lockedDB "39.47" "-0.38" "22.5" "60" "40" "55"
    (.sql "database is locked") (by rfl)

/-- C8 (violated by the code): when the selected statement succeeds with
no row, the handler answers 200 with the slice `data` still nil, and a nil
slice is encoded as `null`, not as `[]`. -/
theorem C8_empty_result_is_nil_slice {F : Type} (Quote : String → String) (db : DB F)
    (dataType date hourStr : String) (stmt : Stmt) (encodeElem : GetData F → String)
    (stop : Option GoError)
    (hstmt : readStmt dataType = some stmt)
    (hrows : db.Query stmt (timeWindow date (Atoi hourStr).1).1
      (timeWindow date (Atoi hourStr).1).2 = .ok ⟨[], stop⟩) :
    (getData Quote db dataType date hourStr).responses = [⟨StatusOK, .data none⟩] ∧
      encodeData encodeElem none = "null" ∧ encodeData encodeElem none ≠ "[]" := by
  rw [getData_of_readStmt Quote db dataType date hourStr stmt hstmt, hrows]
  refine ⟨rfl, rfl, ?_⟩
  show "null" ≠ "[]"
  decide

/-- Witness of C8: a read over an empty table. -/
theorem C8_empty_result_is_nil_slice_witness :
    (getData quoteAscii (tableDB ([] : List (DataRow ℚ))) "temp" "2024-03-01" "15").responses =
        [⟨200, .data none⟩] ∧
      encodeData (fun _ => "") (none : Option (List (GetData ℚ))) = "null" ∧
      encodeData (fun _ => "") (none : Option (List (GetData ℚ))) ≠ "[]" :=
  C8_empty_result_is_nil_slice quoteAscii (tableDB []) "temp" "2024-03-01" "15" .readTempData
    (fun _ => "") none (by decide) (by rfl)

/-- C10 (violated by the code): `hour=0` parses without error and, for a
recognised `data_type`, the handler runs the statement on the window from
`d ++ " -1:00:00"` to `d ++ " 00:00:00"`: the request is not rejected and the
start bound carries the hour `-1`. -/
theorem C10_hour_zero_negative_start {F : Type} (Quote : String → String) (db : DB F)
    (dataType d : String) (stmt : Stmt) (hstmt : readStmt dataType = some stmt) :
    Atoi "0" = (0, none) ∧
    (getData Quote db dataType d "0").queries =
      [⟨stmt, d ++ " -1:00:00", d ++ " 00:00:00"⟩] := by
  have hp : Atoi "0" = (0, none) := by decide
  refine ⟨hp, ?_⟩
  rw [getData_of_readStmt Quote db dataType d "0" stmt hstmt, hp]
  simp only [timeWindow_zero]
  split <;> rfl

/-- Witness of C10: `data_type=temp`, `date=2024-03-01`, `hour=0`. -/
theorem C10_hour_zero_negative_start_witness :
    Atoi "0" = (0, none) ∧
    (getData quoteAscii (tableDB [scenarioRow]) "temp" "2024-03-01" "0").queries =
      [⟨.readTempData, "2024-03-01 -1:00:00", "2024-03-01 00:00:00"⟩] :=
  C10_hour_zero_negative_start quoteAscii (tableDB [scenarioRow]) "temp" "2024-03-01"
    .readTempData (by decide)

end UrbanServer
